import Mathlib

/-!
# Verification of the longcut transcription quota/ledger core

A shallow embedding of `src/lib/transcription-manager.ts` (the transcription
manager), the stored procedures it calls, and the `POST /api/transcribe` route
handler.  Conventions of the embedding:

* Timestamps (`Date` values) are integers: milliseconds since the epoch.
  A present `Date` field is `some ms`; an absent/null one is `none`.  A JS
  truthiness test on a `Date` object (`subscription.currentPeriodStart && ...`)
  is exactly a presence test, since any `Date` object is truthy.
* Minute counts are integers (`Int`), as in the source.
* Asynchronous database reads are passed in explicitly: each embedded function
  takes as arguments the values its queries would return, and returns the new
  state of the rows it writes, together with flags recording which external
  operations it invoked.
* External collaborators that are not part of this repository
  (`getUserSubscriptionStatus`, `hasUnlimitedVideoAllowance`,
  `formatResetAt`, the cost estimators) appear as inputs or as function
  parameters, so every theorem quantifies over their behaviour.
-/

/-- The tier of `UserSubscription` (from the external subscription manager);
the source only ever compares it with the string literal `'pro'`, so it is
kept as a string. -/
structure UserSubscription where
  tier : String
  currentPeriodStart : Option Int
  currentPeriodEnd : Option Int
  userCreatedAt : Option Int
deriving Repr, DecidableEq

/-- The `{ start, end }` record returned by `resolveBillingPeriod`; the source
field `end` is a Lean keyword and is rendered `stop`. -/
structure BillingPeriod where
  start : Int
  stop : Int
deriving Repr, DecidableEq

/-- `const THIRTY_DAYS_MS = 30 * 24 * 60 * 60 * 1000`. -/
def THIRTY_DAYS_MS : Int := 30 * 24 * 60 * 60 * 1000

/-- `resolveBillingPeriod` from `transcription-manager.ts` (lines 89-126).
`Math.floor` of the real quotient of two integer millisecond counts is
floor division, `Int.fdiv`.  The `getD 0` defaults are only read under the
`isSome` guards. -/
def resolveBillingPeriod (subscription : UserSubscription) (now : Int) :
    BillingPeriod :=
  if subscription.tier = "pro" ∧ subscription.currentPeriodStart.isSome ∧
      subscription.currentPeriodEnd.isSome then
    { start := subscription.currentPeriodStart.getD 0
      stop := subscription.currentPeriodEnd.getD 0 }
  else if subscription.userCreatedAt.isSome then
    let signupTime := subscription.userCreatedAt.getD 0
    let elapsedMs := now - signupTime
    let cycleNumber := Int.fdiv elapsedMs THIRTY_DAYS_MS
    let periodStartMs := signupTime + cycleNumber * THIRTY_DAYS_MS
    { start := periodStartMs, stop := periodStartMs + THIRTY_DAYS_MS }
  else
    { start := now - THIRTY_DAYS_MS, stop := now }

/-- C3: for every subscription whose tier is the paid tier `"pro"` and whose
provider-anchored period dates are both present, `resolveBillingPeriod`
returns exactly those two dates unmodified, for every value of `now`. -/
theorem resolveBillingPeriod_provider_anchored
    (s : UserSubscription) (now ps pe : Int)
    (htier : s.tier = "pro")
    (hps : s.currentPeriodStart = some ps)
    (hpe : s.currentPeriodEnd = some pe) :
    resolveBillingPeriod s now = { start := ps, stop := pe } := by
  simp [resolveBillingPeriod, htier, hps, hpe]

/-- Witness for C3: a concrete provider-anchored pro subscription. -/
theorem resolveBillingPeriod_provider_anchored_witness :
    resolveBillingPeriod
      { tier := "pro", currentPeriodStart := some 1000,
        currentPeriodEnd := some 2000, userCreatedAt := some 0 } 5
      = { start := 1000, stop := 2000 } :=
  resolveBillingPeriod_provider_anchored _ 5 1000 2000 rfl rfl rfl

/-- C4: for every signup-anchored subscription (no provider-anchored dates,
`userCreatedAt` present), `resolveBillingPeriod` partitions time into fixed
30-day cycles anchored at signup: `start = signup + ⌊(now - signup)/30d⌋·30d`,
`end = start + 30d`; consecutive cycles are contiguous and non-overlapping,
so a time in cycle `n` resolves to a period ending exactly where the period
of any time in cycle `n + 1` starts. -/
theorem resolveBillingPeriod_signup_cycles
    (s : UserSubscription) (signup now now2 : Int)
    (hps : s.currentPeriodStart = none)
    (hpe : s.currentPeriodEnd = none)
    (hca : s.userCreatedAt = some signup)
    (hsucc : Int.fdiv (now2 - signup) THIRTY_DAYS_MS
      = Int.fdiv (now - signup) THIRTY_DAYS_MS + 1) :
    (resolveBillingPeriod s now).start
        = signup + Int.fdiv (now - signup) THIRTY_DAYS_MS * THIRTY_DAYS_MS ∧
      (resolveBillingPeriod s now).stop
        = (resolveBillingPeriod s now).start + THIRTY_DAYS_MS ∧
      (resolveBillingPeriod s now).stop = (resolveBillingPeriod s now2).start := by
  have hguard : ¬ (s.tier = "pro" ∧ s.currentPeriodStart.isSome ∧
      s.currentPeriodEnd.isSome) := by
    simp [hps]
  refine ⟨?_, ?_, ?_⟩ <;>
    simp [resolveBillingPeriod, hguard, hca, hsucc] <;> ring

/-- Witness for C4: signup at 0, one time in cycle 0 and one in cycle 1;
the first period ends exactly where the second starts. -/
theorem resolveBillingPeriod_signup_cycles_witness :
    (resolveBillingPeriod
        { tier := "free", currentPeriodStart := none, currentPeriodEnd := none,
          userCreatedAt := some 0 } 7).start
        = 0 + Int.fdiv (7 - 0) THIRTY_DAYS_MS * THIRTY_DAYS_MS ∧
      (resolveBillingPeriod
        { tier := "free", currentPeriodStart := none, currentPeriodEnd := none,
          userCreatedAt := some 0 } 7).stop
        = (resolveBillingPeriod
            { tier := "free", currentPeriodStart := none,
              currentPeriodEnd := none, userCreatedAt := some 0 } 7).start
          + THIRTY_DAYS_MS ∧
      (resolveBillingPeriod
        { tier := "free", currentPeriodStart := none, currentPeriodEnd := none,
          userCreatedAt := some 0 } 7).stop
        = (resolveBillingPeriod
            { tier := "free", currentPeriodStart := none,
              currentPeriodEnd := none, userCreatedAt := some 0 }
            THIRTY_DAYS_MS).start :=
  resolveBillingPeriod_signup_cycles _ 0 7 THIRTY_DAYS_MS rfl rfl rfl (by decide)

/-- `TRANSCRIPTION_LIMITS` (minutes per month). -/
structure TranscriptionLimits where
  free : Int
  pro : Int
deriving Repr, DecidableEq

/-- `TRANSCRIPTION_LIMITS = { free: 0, pro: 120 }`. -/
def TRANSCRIPTION_LIMITS : TranscriptionLimits := { free := 0, pro := 120 }

/-- `TRANSCRIPTION_TOPUP_MINUTES = 120`. -/
def TRANSCRIPTION_TOPUP_MINUTES : Int := 120

/-- The nested `subscriptionMinutes` record of `TranscriptionUsageStats`. -/
structure SubscriptionMinutes where
  used : Int
  limit : Int
  remaining : Int
deriving Repr, DecidableEq

/-- `TranscriptionUsageStats`; `isUnlimited?` is an optional field, and
`resetAt` the string produced by the external `formatResetAt`. -/
structure TranscriptionUsageStats where
  subscriptionMinutes : SubscriptionMinutes
  topupMinutes : Int
  totalRemaining : Int
  periodStart : Int
  periodEnd : Int
  resetAt : String
  isUnlimited : Option Bool
deriving Repr, DecidableEq

/-- The sentinel `UNLIMITED_MINUTES = 999999` of `getTranscriptionUsageStats`. -/
def UNLIMITED_MINUTES : Int := 999999

/-- `getTranscriptionUsageStats` (lines 131-226).  Inputs stand for what the
function's external reads return in its context: `isUnlimited` for
`(options?.user && hasUnlimitedVideoAllowance(options.user)) ||
hasUnlimitedVideoAllowanceById(userId)`, `subscription` for
`getUserSubscriptionStatus(userId)`, `usedMinutesData` for the
`get_transcription_usage_in_period` RPC result (`none` for a null result;
`(... as number) || 0` and `?? 0` both become `getD 0`), `topupProfile` for
`profiles.transcription_minutes_topup`, and `fmt` for the external
`formatResetAt` (from `usage-tracker`, outside `src/`). -/
def getTranscriptionUsageStats (isUnlimited : Bool)
    (subscription : Option UserSubscription)
    (usedMinutesData : Option Int) (topupProfile : Option Int)
    (now : Int) (fmt : Int → String) : Option TranscriptionUsageStats :=
  if isUnlimited then
    some { subscriptionMinutes :=
             { used := 0, limit := UNLIMITED_MINUTES,
               remaining := UNLIMITED_MINUTES }
           topupMinutes := 0
           totalRemaining := UNLIMITED_MINUTES
           periodStart := now
           periodEnd := now + THIRTY_DAYS_MS
           resetAt := "Unlimited"
           isUnlimited := some true }
  else
    match subscription with
    | none => none
    | some sub =>
      if sub.tier ≠ "pro" then
        let p := resolveBillingPeriod sub now
        some { subscriptionMinutes := { used := 0, limit := 0, remaining := 0 }
               topupMinutes := 0
               totalRemaining := 0
               periodStart := p.start
               periodEnd := p.stop
               resetAt := fmt p.stop
               isUnlimited := none }
      else
        let p := resolveBillingPeriod sub now
        let usedMinutes := usedMinutesData.getD 0
        let limit := TRANSCRIPTION_LIMITS.pro
        let subscriptionRemaining := max 0 (limit - usedMinutes)
        let topupMinutes := topupProfile.getD 0
        some { subscriptionMinutes :=
                 { used := usedMinutes, limit := limit,
                   remaining := subscriptionRemaining }
               topupMinutes := topupMinutes
               totalRemaining := subscriptionRemaining + topupMinutes
               periodStart := p.start
               periodEnd := p.stop
               resetAt := fmt p.stop
               isUnlimited := none }

/-- The `reason` union of `TranscriptionDecision`. -/
inductive DecisionReason
  | OK
  | NOT_PRO
  | INSUFFICIENT_CREDITS
  | NO_SUBSCRIPTION
  | EXISTING_JOB
deriving Repr, DecidableEq

/-- `TranscriptionDecision`; every optional field of the interface is an
`Option`, `none` when the source leaves it out. -/
structure TranscriptionDecision where
  allowed : Bool
  reason : DecisionReason
  stats : Option TranscriptionUsageStats := none
  subscription : Option UserSubscription := none
  willUseTopup : Option Bool := none
  minutesNeeded : Option Int := none
  existingJobId : Option String := none
  unlimited : Option Bool := none
deriving Repr, DecidableEq

/-- `canStartTranscription` (lines 231-322).  `userUnlimited` stands for
`options?.user && hasUnlimitedVideoAllowance(options.user)` and
`idUnlimited` for `hasUnlimitedVideoAllowanceById(userId)`; the source's
early return tests their disjunction.  `existingJob` is the id returned by
the pending/downloading/transcribing job query for `(userId, youtubeId)`.
The inner `getTranscriptionUsageStats(userId, { client, now })` call passes
no `user`, so its unlimited check reduces to `idUnlimited`, and it reads the
same subscription row, so it receives the same `subscription` value. -/
def canStartTranscription (userUnlimited idUnlimited : Bool)
    (subscription : Option UserSubscription) (existingJob : Option String)
    (usedMinutesData : Option Int) (topupProfile : Option Int)
    (estimatedMinutes : Int) (now : Int) (fmt : Int → String) :
    TranscriptionDecision :=
  if userUnlimited || idUnlimited then
    { allowed := true, reason := .OK, unlimited := some true,
      minutesNeeded := some estimatedMinutes }
  else
    match subscription with
    | none => { allowed := false, reason := .NO_SUBSCRIPTION }
    | some sub =>
      if sub.tier ≠ "pro" then
        { allowed := false, reason := .NOT_PRO, subscription := some sub }
      else
        match existingJob with
        | some jobId =>
          { allowed := false, reason := .EXISTING_JOB,
            existingJobId := some jobId, subscription := some sub }
        | none =>
          match getTranscriptionUsageStats idUnlimited (some sub)
              usedMinutesData topupProfile now fmt with
          | none =>
            { allowed := false, reason := .NO_SUBSCRIPTION,
              subscription := some sub }
          | some stats =>
            if stats.totalRemaining < estimatedMinutes then
              { allowed := false, reason := .INSUFFICIENT_CREDITS,
                stats := some stats, subscription := some sub,
                minutesNeeded := some estimatedMinutes }
            else
              let willUseTopup :=
                decide (stats.subscriptionMinutes.remaining < estimatedMinutes)
                  && decide (stats.topupMinutes > 0)
              { allowed := true, reason := .OK, stats := some stats,
                subscription := some sub, willUseTopup := some willUseTopup,
                minutesNeeded := some estimatedMinutes }

/-- C5: for every admitted decision of `canStartTranscription` for a
non-unlimited pro user, the returned `willUseTopup` flag is `true` exactly
when the subscription pool's remaining minutes are strictly below
`estimatedMinutes` and the top-up balance is strictly positive. -/
theorem canStartTranscription_willUseTopup
    (sub : UserSubscription) (existingJob : Option String)
    (usedMinutesData topupProfile : Option Int) (estimatedMinutes now : Int)
    (fmt : Int → String) (stats : TranscriptionUsageStats)
    (hpro : sub.tier = "pro")
    (hstats : getTranscriptionUsageStats false (some sub) usedMinutesData
      topupProfile now fmt = some stats)
    (hallowed : (canStartTranscription false false (some sub) existingJob
      usedMinutesData topupProfile estimatedMinutes now fmt).allowed = true) :
    (canStartTranscription false false (some sub) existingJob usedMinutesData
        topupProfile estimatedMinutes now fmt).willUseTopup = some true
      ↔ stats.subscriptionMinutes.remaining < estimatedMinutes
          ∧ stats.topupMinutes > 0 := by
  cases existingJob with
  | some jobId => simp [canStartTranscription, hpro] at hallowed
  | none =>
    by_cases hlt : stats.totalRemaining < estimatedMinutes
    · simp [canStartTranscription, hpro, hstats, hlt] at hallowed
    · simp [canStartTranscription, hpro, hstats, hlt]

/-- Witness for C5: `used = 100`, `limit = 120`, top-up `30`, request `25`:
admitted with `willUseTopup = some true` and indeed `20 < 25 ∧ 30 > 0`. -/
theorem canStartTranscription_willUseTopup_witness :
    ((canStartTranscription false false
        (some { tier := "pro", currentPeriodStart := some 0,
                currentPeriodEnd := some 100, userCreatedAt := none })
        none (some 100) (some 30) 25 0
        (fun _ => "reset")).willUseTopup = some true
      ↔ ({ subscriptionMinutes := { used := 100, limit := 120, remaining := 20 }
           topupMinutes := 30
           totalRemaining := 50
           periodStart := 0
           periodEnd := 100
           resetAt := "reset"
           isUnlimited := none } :
            TranscriptionUsageStats).subscriptionMinutes.remaining < 25
          ∧ ({ subscriptionMinutes :=
                 { used := 100, limit := 120, remaining := 20 }
               topupMinutes := 30
               totalRemaining := 50
               periodStart := 0
               periodEnd := 100
               resetAt := "reset"
               isUnlimited := none } :
                TranscriptionUsageStats).topupMinutes > 0) :=
  canStartTranscription_willUseTopup
    { tier := "pro", currentPeriodStart := some 0, currentPeriodEnd := some 100,
      userCreatedAt := none }
    none (some 100) (some 30) 25 0 (fun _ => "reset") _ rfl rfl (by decide)

/-- C6: for every non-unlimited pro user whose computed `UsageStats` satisfy
`totalRemaining < estimatedMinutes`, `canStartTranscription` rejects with
reason `INSUFFICIENT_CREDITS`, carrying `minutesNeeded = estimatedMinutes`
and the current stats; the rejection is the structured return value of a
total function (the embedding has no exception channel, mirroring the
source, which returns and never throws here). -/
theorem canStartTranscription_insufficient_credits
    (sub : UserSubscription) (usedMinutesData topupProfile : Option Int)
    (estimatedMinutes now : Int) (fmt : Int → String)
    (stats : TranscriptionUsageStats)
    (hpro : sub.tier = "pro")
    (hstats : getTranscriptionUsageStats false (some sub) usedMinutesData
      topupProfile now fmt = some stats)
    (hlt : stats.totalRemaining < estimatedMinutes) :
    canStartTranscription false false (some sub) none usedMinutesData
        topupProfile estimatedMinutes now fmt
      = { allowed := false, reason := .INSUFFICIENT_CREDITS,
          stats := some stats, subscription := some sub,
          minutesNeeded := some estimatedMinutes } := by
  simp [canStartTranscription, hpro, hstats, hlt]

/-- Witness for C6: `totalRemaining = 50 < 60` requested, rejected with the
structured `INSUFFICIENT_CREDITS` record. -/
theorem canStartTranscription_insufficient_credits_witness :
    canStartTranscription false false
        (some { tier := "pro", currentPeriodStart := some 0,
                currentPeriodEnd := some 100, userCreatedAt := none })
        none (some 100) (some 30) 60 0 (fun _ => "reset")
      = { allowed := false, reason := .INSUFFICIENT_CREDITS,
          stats := some
            { subscriptionMinutes := { used := 100, limit := 120, remaining := 20 }
              topupMinutes := 30
              totalRemaining := 50
              periodStart := 0
              periodEnd := 100
              resetAt := "reset"
              isUnlimited := none }
          subscription := some
            { tier := "pro", currentPeriodStart := some 0,
              currentPeriodEnd := some 100, userCreatedAt := none }
          minutesNeeded := some 60 } :=
  canStartTranscription_insufficient_credits
    { tier := "pro", currentPeriodStart := some 0, currentPeriodEnd := some 100,
      userCreatedAt := none }
    (some 100) (some 30) 60 0 (fun _ => "reset") _ rfl rfl (by decide)

/-- The per-user, per-period ledger state the atomic consumption procedure
transacts against: minutes already recorded against the current billing
period, the top-up balance, and the per-job recorded splits
(`jobId`, `fromSubscription`, `fromTopup`). -/
structure LedgerState where
  usedMinutes : Int
  topupBalance : Int
  entries : List (String × Int × Int)
deriving Repr, DecidableEq

/-- Modelled from the spec: the stored procedure
`consume_transcription_minutes_atomically` is called by
`consumeTranscriptionMinutes` but its SQL body is not among the repository's
files, so it is modelled from §4.5 of the spec: inside one transaction,
`fromSubscription = min(minutes, max(0, limit - usedSoFar))`,
`fromTopup = minutes - fromSubscription`; if `fromTopup` exceeds the current
top-up balance the whole consumption is rejected and nothing is recorded;
otherwise the usage increment is recorded, the top-up balance debited, and
the split stored keyed to `jobId`.  Returns the split on success, `none` on
rejection, with the resulting ledger state. -/
def consume_transcription_minutes_atomically (st : LedgerState)
    (jobId : String) (minutes limit : Int) :
    Option (Int × Int) × LedgerState :=
  let fromSubscription := min minutes (max 0 (limit - st.usedMinutes))
  let fromTopup := minutes - fromSubscription
  if st.topupBalance < fromTopup then
    (none, st)
  else
    (some (fromSubscription, fromTopup),
      { usedMinutes := st.usedMinutes + fromSubscription
        topupBalance := st.topupBalance - fromTopup
        entries := (jobId, fromSubscription, fromTopup) :: st.entries })

/-- The return value of `consumeTranscriptionMinutes`. -/
structure ConsumeResult where
  success : Bool
  error : Option String := none
  minutesFromSubscription : Option Int := none
  minutesFromTopup : Option Int := none
  unlimited : Option Bool := none
deriving Repr, DecidableEq

/-- What a call to `consumeTranscriptionMinutes` produces: its result, the
ledger state afterwards, and whether the atomic stored procedure was
invoked. -/
structure ConsumeOutcome where
  result : ConsumeResult
  ledger : LedgerState
  atomicInvoked : Bool
deriving Repr, DecidableEq

/-- `consumeTranscriptionMinutes` (lines 481-540).  As in
`canStartTranscription`, `userUnlimited`/`idUnlimited` stand for the two
unlimited-allowance checks and `subscription` for
`getUserSubscriptionStatus(userId)`.  `st` is the ledger state for the
billing period the function resolves and passes to the RPC.  The source's
`!subscription || subscription.tier !== 'pro'` branch returns
`{ success: false, error: 'NOT_PRO' }` before the RPC; the RPC storage-error
branch (`CONSUMPTION_FAILED`) is not modelled — the modelled procedure
always answers. -/
def consumeTranscriptionMinutes (userUnlimited idUnlimited : Bool)
    (subscription : Option UserSubscription) (st : LedgerState)
    (jobId : String) (minutes : Int) (now : Int) : ConsumeOutcome :=
  if userUnlimited || idUnlimited then
    { result := { success := true, unlimited := some true },
      ledger := st, atomicInvoked := false }
  else
    match subscription with
    | none =>
      { result := { success := false, error := some "NOT_PRO" },
        ledger := st, atomicInvoked := false }
    | some sub =>
      if sub.tier ≠ "pro" then
        { result := { success := false, error := some "NOT_PRO" },
          ledger := st, atomicInvoked := false }
      else
        match consume_transcription_minutes_atomically st jobId minutes
            TRANSCRIPTION_LIMITS.pro with
        | (none, st2) =>
          { result := { success := false,
                        error := some "INSUFFICIENT_CREDITS" },
            ledger := st2, atomicInvoked := true }
        | (some (fs, ft), st2) =>
          { result := { success := true,
                        minutesFromSubscription := some fs,
                        minutesFromTopup := some ft },
            ledger := st2, atomicInvoked := true }

/-- C2: for every successful consumption by a non-unlimited pro user, the
returned split sums exactly to the requested minutes and
`minutesFromSubscription = min(minutes, max(0, limit - usedSoFar))`; and
when the top-up shortfall exceeds the current top-up balance the whole
consumption is rejected with `INSUFFICIENT_CREDITS` and nothing is
recorded. -/
theorem consumeTranscriptionMinutes_split
    (sub : UserSubscription) (st : LedgerState) (jobId : String)
    (minutes now : Int) (hpro : sub.tier = "pro") :
    ((consumeTranscriptionMinutes false false (some sub) st jobId minutes
          now).result.success = true →
      ∃ fs ft,
        (consumeTranscriptionMinutes false false (some sub) st jobId minutes
            now).result.minutesFromSubscription = some fs ∧
        (consumeTranscriptionMinutes false false (some sub) st jobId minutes
            now).result.minutesFromTopup = some ft ∧
        fs + ft = minutes ∧
        fs = min minutes (max 0 (TRANSCRIPTION_LIMITS.pro - st.usedMinutes))) ∧
    (st.topupBalance
        < minutes - min minutes (max 0 (TRANSCRIPTION_LIMITS.pro - st.usedMinutes)) →
      (consumeTranscriptionMinutes false false (some sub) st jobId minutes
          now).result.success = false ∧
      (consumeTranscriptionMinutes false false (some sub) st jobId minutes
          now).result.error = some "INSUFFICIENT_CREDITS" ∧
      (consumeTranscriptionMinutes false false (some sub) st jobId minutes
          now).ledger = st) := by
  by_cases hrej : st.topupBalance
      < minutes - min minutes (max 0 (TRANSCRIPTION_LIMITS.pro - st.usedMinutes))
  · constructor
    · intro hsucc
      simp [consumeTranscriptionMinutes,
        consume_transcription_minutes_atomically, hpro, hrej] at hsucc
    · intro _
      refine ⟨?_, ?_, ?_⟩ <;>
        simp [consumeTranscriptionMinutes,
          consume_transcription_minutes_atomically, hpro, hrej]
  · constructor
    · intro _
      refine ⟨min minutes (max 0 (TRANSCRIPTION_LIMITS.pro - st.usedMinutes)),
        minutes - min minutes (max 0 (TRANSCRIPTION_LIMITS.pro - st.usedMinutes)),
        ?_, ?_, ?_, rfl⟩
      · simp [consumeTranscriptionMinutes,
          consume_transcription_minutes_atomically, hpro, hrej]
      · simp [consumeTranscriptionMinutes,
          consume_transcription_minutes_atomically, hpro, hrej]
      · ring
    · intro h
      exact absurd h hrej

/-- Witness for C2: `used = 100`, top-up `30`, request `25`: success with the
split `fromSubscription = 20`, `fromTopup = 5`. -/
theorem consumeTranscriptionMinutes_split_witness :
    ((consumeTranscriptionMinutes false false
          (some { tier := "pro", currentPeriodStart := none,
                  currentPeriodEnd := none, userCreatedAt := none })
          { usedMinutes := 100, topupBalance := 30, entries := [] }
          "job-1" 25 0).result.success = true →
      ∃ fs ft,
        (consumeTranscriptionMinutes false false
            (some { tier := "pro", currentPeriodStart := none,
                    currentPeriodEnd := none, userCreatedAt := none })
            { usedMinutes := 100, topupBalance := 30, entries := [] }
            "job-1" 25 0).result.minutesFromSubscription = some fs ∧
        (consumeTranscriptionMinutes false false
            (some { tier := "pro", currentPeriodStart := none,
                    currentPeriodEnd := none, userCreatedAt := none })
            { usedMinutes := 100, topupBalance := 30, entries := [] }
            "job-1" 25 0).result.minutesFromTopup = some ft ∧
        fs + ft = 25 ∧
        fs = min 25 (max 0 (TRANSCRIPTION_LIMITS.pro - 100))) ∧
    ((30 : Int) < 25 - min 25 (max 0 (TRANSCRIPTION_LIMITS.pro - 100)) →
      (consumeTranscriptionMinutes false false
          (some { tier := "pro", currentPeriodStart := none,
                  currentPeriodEnd := none, userCreatedAt := none })
          { usedMinutes := 100, topupBalance := 30, entries := [] }
          "job-1" 25 0).result.success = false ∧
      (consumeTranscriptionMinutes false false
          (some { tier := "pro", currentPeriodStart := none,
                  currentPeriodEnd := none, userCreatedAt := none })
          { usedMinutes := 100, topupBalance := 30, entries := [] }
          "job-1" 25 0).result.error = some "INSUFFICIENT_CREDITS" ∧
      (consumeTranscriptionMinutes false false
          (some { tier := "pro", currentPeriodStart := none,
                  currentPeriodEnd := none, userCreatedAt := none })
          { usedMinutes := 100, topupBalance := 30, entries := [] }
          "job-1" 25 0).ledger
        = { usedMinutes := 100, topupBalance := 30, entries := [] }) :=
  consumeTranscriptionMinutes_split
    { tier := "pro", currentPeriodStart := none, currentPeriodEnd := none,
      userCreatedAt := none }
    { usedMinutes := 100, topupBalance := 30, entries := [] }
    "job-1" 25 0 rfl

/-- C7: for every unlimited user (either unlimited check true) and every
requested minute amount, however large, `canStartTranscription` admits with
reason `OK` without consulting the subscription, job store or stats (the
decision is the same literal record for all values of those inputs), and
`consumeTranscriptionMinutes` is a no-op success: the ledger is unchanged,
the atomic procedure is never invoked, so nothing is recorded and nothing
could ever be refunded for such a user. -/
theorem unlimited_admit_and_consume_noop
    (userUnlimited idUnlimited : Bool)
    (subscription : Option UserSubscription) (existingJob : Option String)
    (usedMinutesData topupProfile : Option Int)
    (estimatedMinutes now : Int) (fmt : Int → String)
    (st : LedgerState) (jobId : String)
    (h : (userUnlimited || idUnlimited) = true) :
    canStartTranscription userUnlimited idUnlimited subscription existingJob
        usedMinutesData topupProfile estimatedMinutes now fmt
      = { allowed := true, reason := .OK, unlimited := some true,
          minutesNeeded := some estimatedMinutes } ∧
    consumeTranscriptionMinutes userUnlimited idUnlimited subscription st
        jobId estimatedMinutes now
      = { result := { success := true, unlimited := some true },
          ledger := st, atomicInvoked := false } := by
  constructor
  · simp [canStartTranscription, h]
  · simp [consumeTranscriptionMinutes, h]

/-- Witness for C7: an unlimited user requesting 10000 minutes with no
subscription row at all is admitted, and consumption is a no-op. -/
theorem unlimited_admit_and_consume_noop_witness :
    canStartTranscription true false none none none none 10000 0
        (fun _ => "reset")
      = { allowed := true, reason := .OK, unlimited := some true,
          minutesNeeded := some 10000 } ∧
    consumeTranscriptionMinutes true false none
        { usedMinutes := 0, topupBalance := 0, entries := [] } "job-1" 10000 0
      = { result := { success := true, unlimited := some true },
          ledger := { usedMinutes := 0, topupBalance := 0, entries := [] },
          atomicInvoked := false } :=
  unlimited_admit_and_consume_noop true false none none none none 10000 0
    (fun _ => "reset")
    { usedMinutes := 0, topupBalance := 0, entries := [] } "job-1" rfl

/-- C10: for every non-unlimited user whose subscription is missing or not
the `"pro"` tier, `consumeTranscriptionMinutes` returns the structured
failure `{ success: false, error: 'NOT_PRO' }` without invoking the atomic
consumption procedure, leaving the ledger untouched, for any `jobId` and
minute amount. -/
theorem consumeTranscriptionMinutes_not_pro
    (subscription : Option UserSubscription) (st : LedgerState)
    (jobId : String) (minutes now : Int)
    (h : ∀ sub, subscription = some sub → sub.tier ≠ "pro") :
    consumeTranscriptionMinutes false false subscription st jobId minutes now
      = { result := { success := false, error := some "NOT_PRO" },
          ledger := st, atomicInvoked := false } := by
  cases subscription with
  | none => simp [consumeTranscriptionMinutes]
  | some sub => simp [consumeTranscriptionMinutes, h sub rfl]

/-- Witness for C10: a free-tier subscriber's consumption request fails with
`NOT_PRO` and the ledger is untouched. -/
theorem consumeTranscriptionMinutes_not_pro_witness :
    consumeTranscriptionMinutes false false
        (some { tier := "free", currentPeriodStart := none,
                currentPeriodEnd := none, userCreatedAt := some 0 })
        { usedMinutes := 3, topupBalance := 7, entries := [] } "job-9" 42 0
      = { result := { success := false, error := some "NOT_PRO" },
          ledger := { usedMinutes := 3, topupBalance := 7, entries := [] },
          atomicInvoked := false } :=
  consumeTranscriptionMinutes_not_pro
    (some { tier := "free", currentPeriodStart := none,
            currentPeriodEnd := none, userCreatedAt := some 0 })
    { usedMinutes := 3, topupBalance := 7, entries := [] } "job-9" 42 0
    (by intro sub hsub; cases hsub; decide)

/-- `TranscriptionJobStatus`, the source's six-value string union as a closed
inductive. -/
inductive JobStatus
  | pending
  | downloading
  | transcribing
  | completed
  | failed
  | cancelled
deriving Repr, DecidableEq

/-- The transcript payload attached to a completed job.  In the database it
is a jsonb object written only by the completion path; it is kept as a
wrapped string here, so a stored payload is always a truthy (non-null)
object and a JS truthiness test on it is exactly a presence test. -/
structure TranscriptPayload where
  body : String
deriving Repr, DecidableEq

/-- A row of the `transcription_jobs` table, restricted to the columns the
embedded operations read or write. -/
structure JobRow where
  id : String
  status : JobStatus
  errorMessage : Option String
  progress : Int
  currentStage : Option String
  transcriptData : Option TranscriptPayload
  completedChunks : Int
  startedAt : Option Int
  completedAt : Option Int
deriving Repr, DecidableEq

/-- The non-terminal status set `['pending', 'downloading', 'transcribing']`
used by the conditional update in `cancelTranscriptionJob`. -/
def nonTerminalStatuses : List JobStatus := [.pending, .downloading, .transcribing]

/-- What a call to `cancelTranscriptionJob` produces: its return value, the
job table afterwards, and whether `refundTranscriptionMinutes` was
invoked. -/
structure CancelOutcome where
  success : Bool
  error : Option String := none
  store : List JobRow
  refundInvoked : Bool
deriving Repr, DecidableEq

/-- `cancelTranscriptionJob` (lines 571-596).  The conditional update
`update({status: 'cancelled', error_message: 'Cancelled by user'})
.eq('id', jobId).in('status', ['pending','downloading','transcribing'])`
rewrites exactly the rows matching both filters.  After the update the
source unconditionally calls `refundTranscriptionMinutes(jobId)` and
returns `{ success: true }`; the update-error branch (`FAILED_TO_CANCEL`,
a storage failure) is not modelled. -/
def cancelTranscriptionJob (store : List JobRow) (jobId : String) :
    CancelOutcome :=
  let updated := store.map fun row =>
    if row.id = jobId ∧ row.status ∈ nonTerminalStatuses then
      { row with status := .cancelled,
                 errorMessage := some "Cancelled by user" }
    else row
  { success := true, store := updated, refundInvoked := true }

/-- Counterexample to C1 as stated: cancelling a job whose status is already
`completed` leaves the record (and its transcript) unchanged, but the call
reports `success = true` — it is not rejected, no `ALREADY_TERMINAL` error
exists anywhere in the source — and the refund operation IS invoked. -/
theorem cancelTranscriptionJob_completed_counterexample :
    cancelTranscriptionJob
        [{ id := "job-1", status := .completed, errorMessage := none,
           progress := 100, currentStage := none,
           transcriptData := some { body := "transcript" },
           completedChunks := 4, startedAt := some 10, completedAt := some 99 }]
        "job-1"
      = { success := true, error := none,
          store := [{ id := "job-1", status := .completed,
                      errorMessage := none, progress := 100,
                      currentStage := none,
                      transcriptData := some { body := "transcript" },
                      completedChunks := 4, startedAt := some 10,
                      completedAt := some 99 }],
          refundInvoked := true } := by
  decide

/-- C1 as amended: for every job store in which every row with the given id
is in a terminal status, `cancelTranscriptionJob` leaves the job table
(including any transcript) unchanged, because its status update is
conditional on the non-terminal set `{pending, downloading, transcribing}`;
however it still returns `success = true` (it does not reject with
`ALREADY_TERMINAL`) and it still invokes the refund operation. -/
theorem cancelTranscriptionJob_terminal_noop
    (store : List JobRow) (jobId : String)
    (hterm : ∀ row ∈ store, row.id = jobId →
      row.status ∉ nonTerminalStatuses) :
    cancelTranscriptionJob store jobId
      = { success := true, error := none, store := store,
          refundInvoked := true } := by
  unfold cancelTranscriptionJob
  have hmap : (store.map fun row =>
      if row.id = jobId ∧ row.status ∈ nonTerminalStatuses then
        { row with status := .cancelled,
                   errorMessage := some "Cancelled by user" }
      else row) = store := by
    induction store with
    | nil => rfl
    | cons head tail ih =>
      have hhead : ¬ (head.id = jobId ∧ head.status ∈ nonTerminalStatuses) := by
        intro ⟨h1, h2⟩
        exact hterm head (List.mem_cons_self head tail) h1 h2
      simp only [List.map_cons, if_neg hhead, List.cons.injEq, true_and]
      exact ih fun row hrow => hterm row (List.mem_cons_of_mem head hrow)
  rw [hmap]

/-- Witness for C1 as amended: a store holding one completed and one failed
job under the cancelled id, plus an unrelated pending job. -/
theorem cancelTranscriptionJob_terminal_noop_witness :
    cancelTranscriptionJob
        [{ id := "job-1", status := .completed, errorMessage := none,
           progress := 100, currentStage := none,
           transcriptData := some { body := "t" }, completedChunks := 1,
           startedAt := none, completedAt := some 5 },
         { id := "job-2", status := .pending, errorMessage := none,
           progress := 0, currentStage := none, transcriptData := none,
           completedChunks := 0, startedAt := none, completedAt := none }]
        "job-1"
      = { success := true, error := none,
          store := [{ id := "job-1", status := .completed,
                      errorMessage := none, progress := 100,
                      currentStage := none,
                      transcriptData := some { body := "t" },
                      completedChunks := 1, startedAt := none,
                      completedAt := some 5 },
                    { id := "job-2", status := .pending,
                      errorMessage := none, progress := 0,
                      currentStage := none, transcriptData := none,
                      completedChunks := 0, startedAt := none,
                      completedAt := none }],
          refundInvoked := true } :=
  cancelTranscriptionJob_terminal_noop _ "job-1" (by decide)

/-- The `updates` argument of `updateTranscriptionJobStatus`: every field is
optional; `none` stands for an `undefined` (unsupplied) field. -/
structure JobUpdates where
  status : Option JobStatus := none
  progress : Option Int := none
  currentStage : Option String := none
  errorMessage : Option String := none
  transcriptData : Option TranscriptPayload := none
  completedChunks : Option Int := none
  startedAt : Option Int := none
  completedAt : Option Int := none
deriving Repr, DecidableEq

/-- The `updatePayload` record built by `updateTranscriptionJobStatus`: a
field is `some v` exactly when the corresponding key was put into the
payload, `none` when the key is absent. -/
structure UpdatePayload where
  status : Option JobStatus := none
  progress : Option Int := none
  currentStage : Option String := none
  errorMessage : Option String := none
  transcriptData : Option TranscriptPayload := none
  completedChunks : Option Int := none
  startedAt : Option Int := none
  completedAt : Option Int := none
deriving Repr, DecidableEq

/-- The payload-building block of `updateTranscriptionJobStatus` (lines
380-389): each line `if (updates.x !== undefined) updatePayload.y = updates.x`
puts the key into the payload exactly when the field was supplied, so each
payload field equals the corresponding `Option` field of `updates` (the
`.toISOString()` serialization of the two `Date` fields is value-preserving
and elided). -/
def mkUpdatePayload (updates : JobUpdates) : UpdatePayload :=
  { status := updates.status
    progress := updates.progress
    currentStage := updates.currentStage
    errorMessage := updates.errorMessage
    transcriptData := updates.transcriptData
    completedChunks := updates.completedChunks
    startedAt := updates.startedAt
    completedAt := updates.completedAt }

/-- The database `UPDATE` semantics of a sparse payload: a column is
overwritten exactly when its key is present in the payload; absent keys
leave the column untouched. -/
def applyUpdatePayload (p : UpdatePayload) (row : JobRow) : JobRow :=
  { id := row.id
    status := p.status.getD row.status
    errorMessage := match p.errorMessage with
      | some v => some v
      | none => row.errorMessage
    progress := p.progress.getD row.progress
    currentStage := match p.currentStage with
      | some v => some v
      | none => row.currentStage
    transcriptData := match p.transcriptData with
      | some v => some v
      | none => row.transcriptData
    completedChunks := p.completedChunks.getD row.completedChunks
    startedAt := match p.startedAt with
      | some v => some v
      | none => row.startedAt
    completedAt := match p.completedAt with
      | some v => some v
      | none => row.completedAt }

/-- `updateTranscriptionJobStatus` (lines 364-402): builds the sparse
payload and applies it to every row whose id matches (the update-error
branch, `FAILED_TO_UPDATE_JOB`, is a storage failure and not modelled). -/
def updateTranscriptionJobStatus (store : List JobRow) (jobId : String)
    (updates : JobUpdates) : List JobRow :=
  let payload := mkUpdatePayload updates
  store.map fun row => if row.id = jobId then applyUpdatePayload payload row
    else row

/-- C8: `updateTranscriptionJobStatus` is a sparse patch, not a full
overwrite: relating each row of the table to its updated image, every field
whose entry in `updates` is unsupplied (`none`) retains its previous value,
in every row, for every partial update. -/
theorem updateTranscriptionJobStatus_sparse_patch
    (store : List JobRow) (jobId : String) (updates : JobUpdates) :
    List.Forall₂ (fun row rowAfter =>
        (updates.status = none → rowAfter.status = row.status) ∧
        (updates.progress = none → rowAfter.progress = row.progress) ∧
        (updates.currentStage = none →
          rowAfter.currentStage = row.currentStage) ∧
        (updates.errorMessage = none →
          rowAfter.errorMessage = row.errorMessage) ∧
        (updates.transcriptData = none →
          rowAfter.transcriptData = row.transcriptData) ∧
        (updates.completedChunks = none →
          rowAfter.completedChunks = row.completedChunks) ∧
        (updates.startedAt = none → rowAfter.startedAt = row.startedAt) ∧
        (updates.completedAt = none → rowAfter.completedAt = row.completedAt))
      store (updateTranscriptionJobStatus store jobId updates) := by
  induction store with
  | nil => exact List.Forall₂.nil
  | cons head tail ih =>
    refine List.Forall₂.cons ?_ ih
    by_cases hid : head.id = jobId
    · refine ⟨?_, ?_, ?_, ?_, ?_, ?_, ?_, ?_⟩ <;>
        intro hnone <;>
        simp [updateTranscriptionJobStatus, applyUpdatePayload,
          mkUpdatePayload, hid, hnone]
    · simp [updateTranscriptionJobStatus, hid]

/-- The `status` field of the route's success responses. -/
inductive TranscribeStatus
  | pending
  | existing
  | completed
deriving Repr, DecidableEq

/-- The `usage` object embedded in the route's responses (the 403 rejection
variant carries `resetAt`; the pending-success variant does not). -/
structure UsageSummary where
  subscriptionMinutes : SubscriptionMinutes
  topupMinutes : Int
  totalRemaining : Int
  resetAt : Option String := none
deriving Repr, DecidableEq

/-- The JSON body (plus HTTP status) produced by the `POST /api/transcribe`
handler; absent keys are `none`. -/
structure TranscribeResponse where
  success : Bool
  httpStatus : Int
  status : Option TranscribeStatus := none
  jobId : Option String := none
  transcriptData : Option TranscriptPayload := none
  progress : Option Int := none
  currentStage : Option String := none
  reason : Option String := none
  error : Option String := none
  existingJobId : Option String := none
  requiresTopup : Option Bool := none
  minutesNeeded : Option Int := none
  estimatedMinutes : Option Int := none
  estimatedWaitSeconds : Option Int := none
  estimatedCostCents : Option Int := none
  usage : Option UsageSummary := none
  willUseTopup : Option Bool := none
deriving Repr, DecidableEq

/-- A handler run: the response together with whether the admission check
(`canStartTranscription`) and `createTranscriptionJob` were reached. -/
structure HandlerOutcome where
  response : TranscribeResponse
  canStartCalled : Bool
  createJobCalled : Bool
deriving Repr, DecidableEq

/-- The reason string literal each `DecisionReason` serializes to in the
route's JSON. -/
def reasonCode : DecisionReason → String
  | .OK => "OK"
  | .NOT_PRO => "NOT_PRO"
  | .INSUFFICIENT_CREDITS => "INSUFFICIENT_CREDITS"
  | .NO_SUBSCRIPTION => "NO_SUBSCRIPTION"
  | .EXISTING_JOB => "EXISTING_JOB"

/-- The `error` string the route's rejection switch picks per reason. -/
def rejectionErrorMessage : DecisionReason → String
  | .NOT_PRO => "AI Transcription requires a Pro subscription"
  | .INSUFFICIENT_CREDITS => "Insufficient transcription minutes"
  | .EXISTING_JOB => "A transcription job is already in progress"
  | _ => "Cannot start transcription"

/-- The `POST /api/transcribe` handler (`src/app/api/transcribe/route.ts`,
lines 36-227).  Inputs stand for what its awaited collaborators return:
`user` for `supabase.auth.getUser()`; `youtubeId` and `durationSeconds` for
the parsed body (a missing/empty-string `youtubeId` is falsy; `none`
duration stands for a non-finite `Number(...)`, and fractional inputs are
elided by taking the already-ceiled integer); `completedJob` for
`getCompletedTranscription(youtubeId)`; `activeJob` for
`getActiveTranscriptionJob(user.id, youtubeId)`; `decision` for
`canStartTranscription(...)`; `createResult` for the job id of a successful
`createTranscriptionJob` (`none` = `FAILED_TO_CREATE_JOB`); `estCost` and
`estWait` for the external `estimateCostCents`/`estimateProcessingTime`.
The fire-and-forget trigger of `/api/transcribe/process` has no effect on
the response and is not modelled. -/
def transcribeHandler (user : Option String) (youtubeId : Option String)
    (durationSeconds : Option Int)
    (completedJob activeJob : Option JobRow)
    (decision : TranscriptionDecision) (createResult : Option String)
    (estCost estWait : Int → Int) : HandlerOutcome :=
  match user with
  | none =>
    { response := { success := false, httpStatus := 401,
                    error := some "Authentication required",
                    reason := some "AUTH_REQUIRED" },
      canStartCalled := false, createJobCalled := false }
  | some _ =>
  match youtubeId with
  | none =>
    { response := { success := false, httpStatus := 400,
                    error := some "YouTube video ID is required",
                    reason := some "MISSING_VIDEO_ID" },
      canStartCalled := false, createJobCalled := false }
  | some yid =>
  if yid = "" then
    { response := { success := false, httpStatus := 400,
                    error := some "YouTube video ID is required",
                    reason := some "MISSING_VIDEO_ID" },
      canStartCalled := false, createJobCalled := false }
  else
  match durationSeconds with
  | none =>
    { response := { success := false, httpStatus := 400,
                    error := some "Valid video duration is required",
                    reason := some "MISSING_DURATION" },
      canStartCalled := false, createJobCalled := false }
  | some dur =>
  if dur ≤ 0 then
    { response := { success := false, httpStatus := 400,
                    error := some "Valid video duration is required",
                    reason := some "MISSING_DURATION" },
      canStartCalled := false, createJobCalled := false }
  else
  match completedJob.bind fun cj => cj.transcriptData.map fun td => (cj.id, td) with
  | some (cjId, td) =>
    { response := { success := true, httpStatus := 200,
                    status := some .completed, jobId := some cjId,
                    transcriptData := some td },
      canStartCalled := false, createJobCalled := false }
  | none =>
  match activeJob with
  | some aj =>
    { response := { success := true, httpStatus := 200,
                    status := some .existing, jobId := some aj.id,
                    progress := some aj.progress,
                    currentStage := aj.currentStage,
                    estimatedWaitSeconds := some (estWait dur) },
      canStartCalled := false, createJobCalled := false }
  | none =>
  let estimatedMinutes := Int.fdiv (dur + 59) 60
  if decision.allowed then
    match createResult with
    | none =>
      { response := { success := false, httpStatus := 500,
                      error := some "Failed to create transcription job",
                      reason := some "FAILED_TO_CREATE_JOB" },
        canStartCalled := true, createJobCalled := true }
    | some jobId =>
      { response := { success := true, httpStatus := 200,
                      status := some .pending, jobId := some jobId,
                      estimatedMinutes := some estimatedMinutes,
                      estimatedWaitSeconds := some (estWait dur),
                      estimatedCostCents := some (estCost dur),
                      usage := decision.stats.map fun s =>
                        { subscriptionMinutes := s.subscriptionMinutes,
                          topupMinutes := s.topupMinutes,
                          totalRemaining :=
                            s.totalRemaining - estimatedMinutes },
                      willUseTopup := decision.willUseTopup },
        canStartCalled := true, createJobCalled := true }
  else
    { response := { success := false, httpStatus := 403,
                    reason := some (reasonCode decision.reason),
                    minutesNeeded := some estimatedMinutes,
                    usage := decision.stats.map fun s =>
                      { subscriptionMinutes := s.subscriptionMinutes,
                        topupMinutes := s.topupMinutes,
                        totalRemaining := s.totalRemaining,
                        resetAt := some s.resetAt },
                    error := some (rejectionErrorMessage decision.reason),
                    requiresTopup :=
                      if decision.reason = .INSUFFICIENT_CREDITS then some true
                      else none,
                    existingJobId :=
                      if decision.reason = .EXISTING_JOB then
                        decision.existingJobId
                      else none },
      canStartCalled := true, createJobCalled := false }

/-- C9: whenever an authenticated request names a video that already has a
completed transcription with a transcript payload, the handler returns that
transcript and job id (HTTP 200, `status: 'completed'`) before any
subscription, credit or admission check: the outcome is one fixed record
independent of the active-job lookup, of the decision (so also of the
caller's tier or missing subscription) and of job creation, and
`canStartTranscription` is never called. -/
theorem transcribeHandler_completed_short_circuit
    (uid yid : String) (dur : Int) (cj : JobRow) (td : TranscriptPayload)
    (activeJob : Option JobRow) (decision : TranscriptionDecision)
    (createResult : Option String) (estCost estWait : Int → Int)
    (hyid : yid ≠ "") (hdur : 0 < dur)
    (htd : cj.transcriptData = some td) :
    transcribeHandler (some uid) (some yid) (some dur) (some cj) activeJob
        decision createResult estCost estWait
      = { response := { success := true, httpStatus := 200,
                        status := some .completed, jobId := some cj.id,
                        transcriptData := some td },
          canStartCalled := false, createJobCalled := false } := by
  have hdur2 : ¬ dur ≤ 0 := not_le.mpr hdur
  simp [transcribeHandler, hyid, hdur2, htd]

/-- Witness for C9: a request for an already-transcribed video is answered
with the cached transcript even though the decision input is a free-tier
`NOT_PRO` rejection. -/
theorem transcribeHandler_completed_short_circuit_witness :
    transcribeHandler (some "user-1") (some "yt-1") (some 600)
        (some { id := "job-1", status := .completed, errorMessage := none,
                progress := 100, currentStage := none,
                transcriptData := some { body := "transcript" },
                completedChunks := 1, startedAt := none,
                completedAt := some 5 })
        none
        { allowed := false, reason := .NOT_PRO }
        none (fun _ => 0) (fun _ => 0)
      = { response := { success := true, httpStatus := 200,
                        status := some .completed, jobId := some "job-1",
                        transcriptData := some { body := "transcript" } },
          canStartCalled := false, createJobCalled := false } :=
  transcribeHandler_completed_short_circuit "user-1" "yt-1" 600
    { id := "job-1", status := .completed, errorMessage := none,
      progress := 100, currentStage := none,
      transcriptData := some { body := "transcript" },
      completedChunks := 1, startedAt := none, completedAt := some 5 }
    { body := "transcript" } none { allowed := false, reason := .NOT_PRO }
    none (fun _ => 0) (fun _ => 0) (by decide) (by decide) rfl
